import Mathlib

/-!
Verification of the patrol-navigation example: a shallow embedding of the two
source files `move_action_node.cpp` (the "move" Action Executor) and
`patrolling_controller_node.cpp` (the Mission Controller), with theorems about
their state machines.

Conventions of the embedding:
- C++ `double` arithmetic is modelled exactly over `ℚ` (for state fields and
  coordinates) and `ℝ` (for the square-root distance), ignoring floating-point
  rounding.
- The source stores the Euclidean distance `dist_to_move = sqrt(dx*dx + dy*dy)`;
  the state here stores its square `dist_to_move_sq` so the machine stays
  executable, and the comparison `dist_to_move < 0.3` of the source becomes
  `dist_to_move_sq < 9/100`; the lemma `getDistance_lt_threshold_iff` proves the
  two comparisons equivalent.
- Calls whose only effect is a log line to the ROS logger are not modelled as
  events; feedback and result reports to the host engine are.
-/

namespace Patrol

/-- Pose as in geometry_msgs: position x, y, z and orientation quaternion
components x, y, z, w (named ox, oy, oz, ow here). The ROS 2 message default is
the all-zero position with identity orientation (w = 1). -/
structure Pose where
  x : ℚ
  y : ℚ
  z : ℚ
  ox : ℚ
  oy : ℚ
  oz : ℚ
  ow : ℚ
deriving DecidableEq

/-- Default-constructed geometry_msgs Pose: zero position, identity quaternion. -/
def defaultPose : Pose := ⟨0, 0, 0, 0, 0, 0, 1⟩

/-- PoseStamped as in geometry_msgs: a frame id plus a pose (the stamp is not
modelled; nothing in the code reads it back). -/
structure PoseStamped where
  frame_id : String
  pose : Pose
deriving DecidableEq

/-- Default-constructed PoseStamped, as produced by std::map operator[] on a
missing key: empty frame, default pose. -/
def defaultPoseStamped : PoseStamped := ⟨"", defaultPose⟩

/-- Helper assembling a waypoint exactly as the MoveAction constructor does:
frame "/map", position (x, y, 0), orientation (0, 0, 0, 1). -/
def mkWaypoint (x y : ℚ) : PoseStamped := ⟨"/map", ⟨x, y, 0, 0, 0, 0, 1⟩⟩

/-- The waypoint table `waypoints_` built in the MoveAction constructor. -/
def waypoints : List (String × PoseStamped) :=
  [("wp4", mkWaypoint (-7) (3/2)),
   ("wp1", mkWaypoint 6 2),
   ("wp3", mkWaypoint (-3) (-8)),
   ("wp2", mkWaypoint 7 (-5)),
   ("wp_control", mkWaypoint 2 2)]

/-- Lookup in the waypoint table. `waypoints_[wp]` is std::map operator[]:
it returns the stored pose when the key is present and a default-constructed
PoseStamped when it is absent (the source performs no failure check). -/
def waypointsGet (key : String) : PoseStamped :=
  match waypoints.find? (fun p => p.1 == key) with
  | some p => p.2
  | none => defaultPoseStamped

/-- Square of the planar distance computed by `MoveAction::getDistance`:
(x1 - x2)^2 + (y1 - y2)^2, ignoring z. -/
def getDistanceSq (pos1 pos2 : Pose) : ℚ :=
  (pos1.x - pos2.x) * (pos1.x - pos2.x) + (pos1.y - pos2.y) * (pos1.y - pos2.y)

/-- `MoveAction::getDistance`: sqrt of the planar squared distance, as a real. -/
noncomputable def getDistance (pos1 pos2 : Pose) : ℝ :=
  Real.sqrt ((getDistanceSq pos1 pos2 : ℚ) : ℝ)

theorem getDistanceSq_nonneg (p q : Pose) : 0 ≤ getDistanceSq p q :=
  add_nonneg (mul_self_nonneg _) (mul_self_nonneg _)

/-- The source's reach test `dist_to_move < 0.3` (on the square root) is
equivalent to the squared comparison used by the executable machine. -/
theorem getDistance_lt_threshold_iff (p q : Pose) :
    getDistance p q < 3 / 10 ↔ getDistanceSq p q < 9 / 100 := by
  unfold getDistance
  rw [show (3 / 10 : ℝ) = Real.sqrt ((9 / 100 : ℚ) : ℝ) by
    rw [show ((9 / 100 : ℚ) : ℝ) = (3 / 10 : ℝ) ^ 2 by norm_num]
    exact (Real.sqrt_sq (by norm_num)).symm]
  rw [Real.sqrt_lt_sqrt_iff (by exact_mod_cast getDistanceSq_nonneg p q)]
  exact_mod_cast Iff.rfl

/-- Observable outputs of the Action Executor toward the host engine:
`send_feedback` and `finish` from ActionExecutorClient, plus the asynchronous
navigation goal submission. -/
inductive MoveEvent where
  | send_feedback (fraction : ℚ) (msg : String)
  | submitGoal (target : PoseStamped)
  | finish (success : Bool) (fraction : ℚ) (msg : String)
deriving DecidableEq

/-- State of one MoveAction instance: `status_` (int: 0 idle / 1 navigating /
2 reached), `goal_pos_`, and the stored distance `dist_to_move` represented by
its square `dist_to_move_sq`. -/
structure MoveState where
  status : Int
  goal_pos : PoseStamped
  dist_to_move_sq : ℚ
deriving DecidableEq

/-- One tick of `MoveAction::do_work`. Inputs: the latest `current_pos_` from
the /odom subscription and the action's positional arguments. Mirrors the
source branch by branch:
- status 0: send 0% feedback "Move starting"; (after the blocking
  wait-for-server loop, not modelled) resolve arguments[2] in the waypoint
  table via operator[]; set `goal_pos_`; set `dist_to_move` to the distance
  between goal and current pose; submit the navigation goal; status := 1.
- status 1: reassign `dist_to_move` to the current distance; if it is < 0.3
  (here: its square < 9/100), status := 2.
- status 2: status := 0; finish(true, 1.0, "Move completed"). -/
def do_work (s : MoveState) (current_pos : Pose) (arguments : List String) :
    MoveState × List MoveEvent :=
  if s.status = 0 then
    let wp_to_navigate := arguments.getD 2 ""
    let goal_pos := waypointsGet wp_to_navigate
    let dist := getDistanceSq goal_pos.pose current_pos
    ({ status := 1, goal_pos := goal_pos, dist_to_move_sq := dist },
     [MoveEvent.send_feedback 0 "Move starting", MoveEvent.submitGoal goal_pos])
  else if s.status = 1 then
    let dist := getDistanceSq s.goal_pos.pose current_pos
    if dist < 9 / 100 then
      ({ s with status := 2, dist_to_move_sq := dist }, [])
    else
      ({ s with dist_to_move_sq := dist }, [])
  else if s.status = 2 then
    ({ s with status := 0 }, [MoveEvent.finish true 1 "Move completed"])
  else
    (s, [])

/-- The navigation feedback callback registered in `do_work` status 0: given the
Motion-Service-reported `feedback->distance_remaining` and the current value of
the member `dist_to_move`, it reports
`std::min(1.0, std::max(0.0, 1.0 - distance_remaining / dist_to_move))`
with message "Move running". -/
noncomputable def feedback_callback_fraction (distance_remaining dist_to_move : ℝ) : ℝ :=
  min 1 (max 0 (1 - distance_remaining / dist_to_move))

/-- Modelled from the spec: clamp of a value to the interval [0, 1], used to
compare the source's min/max expression with the spec's clamp(·, 0, 1). -/
def clamp01 (v : ℝ) : ℝ := max 0 (min 1 v)

/-- C1: for every raw remaining distance r and every denominator d0 held by the
feedback callback, the reported progress fraction equals clamp(1 - r/d0, 0, 1)
and lies in [0, 1], even when r exceeds d0 (division by a zero denominator
follows the total division of the model). -/
theorem C1_progress_fraction_clamped (r d0 : ℝ) :
    feedback_callback_fraction r d0 = clamp01 (1 - r / d0) ∧
    0 ≤ feedback_callback_fraction r d0 ∧ feedback_callback_fraction r d0 ≤ 1 := by
  unfold feedback_callback_fraction clamp01
  refine ⟨?_, le_min zero_le_one (le_max_left 0 _), min_le_left 1 _⟩
  rw [min_max_distrib_left]
  simp

/-- C5: the executor's status cycles 0 (Idle, doing the AwaitingServer work on
its single tick) → 1 (Navigating) → 2 (Reached) → 0; the status after a tick is
2 only when the previous status was 1 (never from Reached back to Navigating),
and only when the planar distance between target pose and the tick's current
pose was strictly below 0.3. -/
theorem C5_executor_state_machine (s : MoveState) (pos : Pose) (args : List String) :
    (s.status = 0 → (do_work s pos args).1.status = 1) ∧
    (s.status = 1 → (do_work s pos args).1.status = 1 ∨ (do_work s pos args).1.status = 2) ∧
    (s.status = 2 → (do_work s pos args).1.status = 0) ∧
    ((do_work s pos args).1.status = 2 →
      s.status = 1 ∧ getDistance s.goal_pos.pose pos < 3 / 10) := by
  unfold do_work
  by_cases h0 : s.status = 0
  · simp [h0]
  · by_cases h1 : s.status = 1
    · by_cases hd : getDistanceSq s.goal_pos.pose pos < 9 / 100
      · simp [h0, h1, hd, (getDistance_lt_threshold_iff s.goal_pos.pose pos).mpr hd]
      · simp [h0, h1, hd]
    · by_cases h2 : s.status = 2
      · simp [h0, h1, h2]
      · simp [h0, h1, h2]

theorem C5_executor_state_machine_witness :
    (do_work ⟨0, defaultPoseStamped, 0⟩ defaultPose ["r2d2", "wp_control", "wp1"]).1.status = 1 :=
  (C5_executor_state_machine ⟨0, defaultPoseStamped, 0⟩ defaultPose
    ["r2d2", "wp_control", "wp1"]).1 rfl

/-- C8: the only terminal report a MoveAction tick can emit is
finish(true, 1.0, "Move completed"), and it is emitted only from status 2
(Reached); no tick on any state emits a failure result. -/
theorem C8_only_success_finish (s : MoveState) (pos : Pose) (args : List String)
    (b : Bool) (f : ℚ) (m : String)
    (h : MoveEvent.finish b f m ∈ (do_work s pos args).2) :
    b = true ∧ f = 1 ∧ m = "Move completed" ∧ s.status = 2 := by
  unfold do_work at h
  by_cases h0 : s.status = 0
  · simp [h0] at h
  · by_cases h1 : s.status = 1
    · by_cases hd : getDistanceSq s.goal_pos.pose pos < 9 / 100
      · simp [h0, h1, hd] at h
      · simp [h0, h1, hd] at h
    · by_cases h2 : s.status = 2
      · simp [h0, h1, h2] at h
        exact ⟨h.1, h.2.1, h.2.2, h2⟩
      · simp [h0, h1, h2] at h

theorem C8_only_success_finish_witness :
    true = true ∧ (1 : ℚ) = 1 ∧ "Move completed" = "Move completed" ∧
    (⟨2, defaultPoseStamped, 0⟩ : MoveState).status = 2 :=
  C8_only_success_finish ⟨2, defaultPoseStamped, 0⟩ defaultPose [] true 1 "Move completed"
    (by simp [do_work])

/-- Concrete run used for the C2 counterexample: status 0, robot at (0, 2). -/
def c2_s0 : MoveState := ⟨0, defaultPoseStamped, 0⟩

def c2_args : List String := ["r2d2", "wp_control", "wp1"]

/-- Robot position at goal submission: distance to wp1 at (6, 2) is 6. -/
def c2_posA : Pose := ⟨0, 2, 0, 0, 0, 0, 1⟩

/-- Robot position on the next Navigating tick: distance to wp1 is 3. -/
def c2_posB : Pose := ⟨3, 2, 0, 0, 0, 0, 1⟩

def c2_s1 : MoveState := (do_work c2_s0 c2_posA c2_args).1

def c2_s2 : MoveState := (do_work c2_s1 c2_posB c2_args).1

/-- C2 counterexample: the stored `dist_to_move` is not captured exactly once.
After the first Navigating tick its value (distance 3, square 9) differs from
the value captured at goal submission (distance 6, square 36), so a feedback
callback firing at that point normalizes by 3, not by the initial d0 = 6: for
remaining distance r = 3 it reports 0 where clamp(1 - r/d0, 0, 1) = 1/2. -/
theorem C2_counterexample :
    c2_s1.dist_to_move_sq = 36 ∧
    c2_s2.dist_to_move_sq = 9 ∧
    c2_s2.dist_to_move_sq ≠ c2_s1.dist_to_move_sq ∧
    feedback_callback_fraction 3 (Real.sqrt ((c2_s2.dist_to_move_sq : ℚ) : ℝ)) ≠
      clamp01 (1 - 3 / Real.sqrt ((c2_s1.dist_to_move_sq : ℚ) : ℝ)) := by
  have harg : c2_args.getD 2 "" = "wp1" := rfl
  have hwp : waypointsGet "wp1" = mkWaypoint 6 2 := rfl
  have hs1 : c2_s1 = ⟨1, mkWaypoint 6 2, 36⟩ := by
    show (do_work c2_s0 c2_posA c2_args).1 = _
    unfold do_work
    rw [harg]
    simp only [hwp]
    norm_num [c2_s0, getDistanceSq, mkWaypoint, c2_posA, MoveState.mk.injEq]
  have h1 : c2_s1.dist_to_move_sq = 36 := by rw [hs1]
  have h2 : c2_s2.dist_to_move_sq = 9 := by
    show (do_work c2_s1 c2_posB c2_args).1.dist_to_move_sq = 9
    rw [hs1]
    unfold do_work
    norm_num [getDistanceSq, mkWaypoint, c2_posB]
  refine ⟨h1, h2, by rw [h1, h2]; norm_num, ?_⟩
  rw [h1, h2]
  have s9 : Real.sqrt ((9 : ℚ) : ℝ) = 3 := by
    rw [show ((9 : ℚ) : ℝ) = (3 : ℝ) ^ 2 by norm_num]
    exact Real.sqrt_sq (by norm_num)
  have s36 : Real.sqrt ((36 : ℚ) : ℝ) = 6 := by
    rw [show ((36 : ℚ) : ℝ) = (6 : ℝ) ^ 2 by norm_num]
    exact Real.sqrt_sq (by norm_num)
  rw [s9, s36]
  unfold feedback_callback_fraction clamp01
  norm_num

/-- C2 amended: `dist_to_move` is set to the goal-to-current-pose distance at
goal submission (status 0) but is reassigned on every Navigating tick (status 1)
to the freshly computed distance between the current goal pose and the tick's
current pose; the feedback callback therefore normalizes by the most recently
stored distance, not by a denominator captured exactly once. Every distance is
computed from the current goal and current pose at the moment of computation. -/
theorem C2_denominator_reassigned_each_tick (s : MoveState) (pos : Pose) (args : List String) :
    (s.status = 0 → (do_work s pos args).1.dist_to_move_sq =
      getDistanceSq (waypointsGet (args.getD 2 "")).pose pos) ∧
    (s.status = 1 → (do_work s pos args).1.dist_to_move_sq =
      getDistanceSq s.goal_pos.pose pos) := by
  unfold do_work
  constructor
  · intro h0
    simp [h0]
  · intro h1
    by_cases h0 : s.status = 0
    · rw [h0] at h1; exact absurd h1 (by norm_num)
    · by_cases hd : getDistanceSq s.goal_pos.pose pos < 9 / 100
      · simp [h0, h1, hd]
      · simp [h0, h1, hd]

theorem C2_denominator_reassigned_each_tick_witness :
    (do_work c2_s1 c2_posB c2_args).1.dist_to_move_sq =
      getDistanceSq c2_s1.goal_pos.pose c2_posB :=
  (C2_denominator_reassigned_each_tick c2_s1 c2_posB c2_args).2 rfl

/-- Arguments whose third entry names a waypoint absent from the table. -/
def c3_args : List String := ["r2d2", "wp_control", "wp5"]

def c3_s0 : MoveState := ⟨0, defaultPoseStamped, 0⟩

/-- C3 counterexample: with third argument "wp5", absent from the waypoint
table, the first tick does not fail the action: it emits exactly the starting
feedback and a navigation goal toward the default-constructed pose (map
operator[] on a missing key), and advances to Navigating. -/
theorem C3_counterexample :
    waypoints.find? (fun p => p.1 == "wp5") = none ∧
    (do_work c3_s0 defaultPose c3_args).1.status = 1 ∧
    (do_work c3_s0 defaultPose c3_args).1.goal_pos = defaultPoseStamped ∧
    (do_work c3_s0 defaultPose c3_args).2 =
      [MoveEvent.send_feedback 0 "Move starting", MoveEvent.submitGoal defaultPoseStamped] :=
  ⟨rfl, rfl, rfl, rfl⟩

/-- C3 amended: when the third positional argument is absent from the waypoint
table, the executor does not fail the action; the map lookup yields a
default-constructed pose (origin position, identity orientation, empty frame),
the executor submits a navigation goal toward that default pose, advances to
Navigating, and emits no terminal report on that tick. -/
theorem C3_missing_waypoint_not_failed (s : MoveState) (pos : Pose) (args : List String)
    (h0 : s.status = 0)
    (habs : waypoints.find? (fun p => p.1 == args.getD 2 "") = none) :
    (do_work s pos args).1.goal_pos = defaultPoseStamped ∧
    (do_work s pos args).1.status = 1 ∧
    MoveEvent.submitGoal defaultPoseStamped ∈ (do_work s pos args).2 ∧
    ∀ b f m, MoveEvent.finish b f m ∉ (do_work s pos args).2 := by
  have hget : waypointsGet (args.getD 2 "") = defaultPoseStamped := by
    unfold waypointsGet
    rw [habs]
  simp only [List.getD_eq_getElem?_getD] at hget
  unfold do_work
  simp [h0, hget]

theorem C3_missing_waypoint_not_failed_witness :
    (do_work c3_s0 defaultPose c3_args).1.goal_pos = defaultPoseStamped ∧
    (do_work c3_s0 defaultPose c3_args).1.status = 1 ∧
    MoveEvent.submitGoal defaultPoseStamped ∈ (do_work c3_s0 defaultPose c3_args).2 ∧
    ∀ b f m, MoveEvent.finish b f m ∉ (do_work c3_s0 defaultPose c3_args).2 :=
  C3_missing_waypoint_not_failed c3_s0 defaultPose c3_args rfl rfl

/-! ## Mission Controller (`patrolling_controller_node.cpp`) -/

/-- The controller's StateType enum: STARTING, PATROL_FINISHED, GO_BACK. -/
inductive MissionState where
  | STARTING
  | PATROL_FINISHED
  | GO_BACK
deriving DecidableEq

/-- Status of one sub-action as in plansys2_msgs ActionExecutionInfo; the
controller only ever compares against FAILED. -/
inductive ActionStatus where
  | NOT_EXECUTED
  | EXECUTING
  | FAILED
  | SUCCEEDED
  | CANCELLED
deriving DecidableEq, BEq

/-- One entry of the Execution Engine feedback list. -/
structure ActionFeedbackInfo where
  action : String
  completion : ℚ
  status : ActionStatus
  message_status : String
deriving DecidableEq

/-- State of the external Execution Engine as seen through ExecutorClient:
whether a submitted plan is still executing, and the last available result. -/
structure EngineState where
  inFlight : Bool
  result : Option Bool
deriving DecidableEq

/-- Controller state: `state_`, `received_value_`, and the Knowledge Store
contents it mutates (predicates and goal). The engine state is carried along so
the guard `!execute_and_check_plan() && getResult()` can be evaluated. -/
structure CtrlState where
  state : MissionState
  received_value : Int
  predicates : List String
  goal : String
  engine : EngineState
deriving DecidableEq

/-- Environment input consumed during one controller tick: whether the running
plan finishes now and with which outcome, whether the planner finds a plan,
whether plan submission succeeds, and the engine feedback list. -/
structure CtrlInput where
  finishNow : Bool
  finishSuccess : Bool
  planFound : Bool
  startOk : Bool
  feedback : List ActionFeedbackInfo
deriving DecidableEq

/-- Calls the controller makes on its collaborators during one tick, in order. -/
inductive CtrlEvent where
  | logMsg (msg : String)
  | printFeedback (action : String) (completionPercent : ℚ)
  | setGoalCall (goal : String)
  | removePredicateCall (p : String)
  | getPlanCall (goal : String)
  | startPlanCall
deriving DecidableEq

/-- The patrol goal set in STARTING. -/
def patrol_goal : String :=
  "(and (robot_at r2d2 wp4) (patrolled wp1) (patrolled wp2) (patrolled wp3) (patrolled wp4))"

/-- Predicates seeded by `init_knowledge`. -/
def init_predicates : List String :=
  ["(robot_at r2d2 wp_control)",
   "(connected wp_control wp1)",
   "(connected wp1 wp2)",
   "(connected wp2 wp3)",
   "(connected wp3 wp4)",
   "(connected wp4 wp1)",
   "(connected wp4 wp3)",
   "(connected wp3 wp2)"]

/-- Controller state right after `init` / `init_knowledge`: STARTING, selector
sentinel -1, seeded predicates, no goal set yet, engine idle. -/
def initState : CtrlState :=
  { state := MissionState.STARTING
    received_value := -1
    predicates := init_predicates
    goal := ""
    engine := { inFlight := false, result := none } }

/-- Engine evolution that may happen before a tick reads it: a plan in flight
can finish, after which `isExecuting` is false and the result is available. -/
def envUpdate (e : EngineState) (i : CtrlInput) : EngineState :=
  if e.inFlight && i.finishNow then { inFlight := false, result := some i.finishSuccess } else e

/-- Effect of `start_plan_execution` on the engine: on success a new plan is in
flight and the previous result is discarded; on failure nothing changes. -/
def startEngine (e : EngineState) (ok : Bool) : EngineState :=
  if ok then { inFlight := true, result := none } else e

/-- `removePredicate` on the Knowledge Store contents. -/
def removePred (preds : List String) (p : String) : List String :=
  preds.filter (fun q => q != p)

/-- The per-sub-action completion printout at the top of PATROL_FINISHED and
GO_BACK ticks (completion * 100 percent). -/
def feedbackPrints (fb : List ActionFeedbackInfo) : List CtrlEvent :=
  fb.map (fun a => CtrlEvent.printFeedback a.action (a.completion * 100))

/-- The failure logs: one line per sub-action whose status is FAILED. -/
def failedLogs (fb : List ActionFeedbackInfo) : List CtrlEvent :=
  (fb.filter (fun a => a.status == ActionStatus.FAILED)).map
    (fun a => CtrlEvent.logMsg ("[" ++ a.action ++ "] finished with error: " ++ a.message_status))

/-- The `switch (received_value_)` of the PATROL_FINISHED success branch:
selector 0..3 chooses the single-destination goal for wp1..wp4; any other value
selects nothing. -/
def selectorGoal (v : Int) : Option String :=
  if v = 0 then some "(and(robot_at r2d2 wp1))"
  else if v = 1 then some "(and(robot_at r2d2 wp2))"
  else if v = 2 then some "(and(robot_at r2d2 wp3))"
  else if v = 3 then some "(and(robot_at r2d2 wp4))"
  else none

/-- The `switch (received_value_)` of the GO_BACK success branch: selector 0..3
names the robot_at fact to remove; any other value selects nothing. -/
def selectorRobotAt (v : Int) : Option String :=
  if v = 0 then some "(robot_at r2d2 wp1)"
  else if v = 1 then some "(robot_at r2d2 wp2)"
  else if v = 2 then some "(robot_at r2d2 wp3)"
  else if v = 3 then some "(robot_at r2d2 wp4)"
  else none

/-- The four removePredicate calls of the PATROL_FINISHED success branch. -/
def clearPatrolled (preds : List String) : List String :=
  removePred
    (removePred (removePred (removePred preds "(patrolled wp1)") "(patrolled wp2)")
      "(patrolled wp3)")
    "(patrolled wp4)"

/-- Shared replan tail of the failure branches of PATROL_FINISHED and GO_BACK:
log each failed sub-action, fetch a fresh domain+problem snapshot, ask for a
plan for the unchanged goal; if none, log and break; otherwise call
start_plan_execution, ignoring its return value. The mission state is not
changed by this branch. -/
def replanOnFailure (s : CtrlState) (i : CtrlInput) : CtrlState × List CtrlEvent :=
  let evs := failedLogs i.feedback ++ [CtrlEvent.getPlanCall s.goal]
  if i.planFound then
    ({ s with engine := startEngine s.engine i.startOk }, evs ++ [CtrlEvent.startPlanCall])
  else
    (s, evs ++ [CtrlEvent.logMsg "Unsuccessful replan attempt to reach goal"])

/-- One tick of `PatrollingController::step`, mirroring the source switch:
- STARTING: setGoal(patrol goal); getPlan on a fresh snapshot; if no plan, log
  and stay; otherwise start_plan_execution and move to PATROL_FINISHED exactly
  when it returns true.
- PATROL_FINISHED: print feedback percentages; if the plan is no longer
  executing and a result is available, then on success remove the four
  patrolled facts, run the selector switch (0..3 set the mapped goal, anything
  else logs "Invalid state :("), getPlan; if no plan, log and stay; otherwise
  start_plan_execution and move to GO_BACK exactly when it returns true. On
  failure, log failed sub-actions and replan for the unchanged goal, staying in
  PATROL_FINISHED.
- GO_BACK: same polling pattern; on success remove the selector-mapped robot_at
  fact (or log "Invalid state :("); on failure replan for the unchanged goal.
  No branch leaves GO_BACK (the missing break before default only runs the
  empty default case). -/
def step (s : CtrlState) (i : CtrlInput) : CtrlState × List CtrlEvent :=
  let eng := envUpdate s.engine i
  let s0 := { s with engine := eng }
  match s.state with
  | MissionState.STARTING =>
      let s1 := { s0 with goal := patrol_goal }
      let evs := [CtrlEvent.setGoalCall patrol_goal, CtrlEvent.getPlanCall patrol_goal]
      if i.planFound then
        if i.startOk then
          ({ s1 with state := MissionState.PATROL_FINISHED, engine := startEngine eng true },
           evs ++ [CtrlEvent.startPlanCall])
        else
          (s1, evs ++ [CtrlEvent.startPlanCall])
      else
        (s1, evs ++ [CtrlEvent.logMsg "Could not find plan to reach goal"])
  | MissionState.PATROL_FINISHED =>
      let prints := feedbackPrints i.feedback
      if !eng.inFlight && (eng.result).isSome then
        if eng.result = some true then
          let s1 := { s0 with predicates := clearPatrolled s0.predicates }
          let removeEvs :=
            [CtrlEvent.removePredicateCall "(patrolled wp1)",
             CtrlEvent.removePredicateCall "(patrolled wp2)",
             CtrlEvent.removePredicateCall "(patrolled wp3)",
             CtrlEvent.removePredicateCall "(patrolled wp4)"]
          let (s2, goalEvs) :=
            match selectorGoal s.received_value with
            | some g => ({ s1 with goal := g }, [CtrlEvent.setGoalCall g])
            | none => (s1, [CtrlEvent.logMsg "Invalid state :("])
          let evs := prints ++ removeEvs ++ goalEvs ++ [CtrlEvent.getPlanCall s2.goal]
          if i.planFound then
            if i.startOk then
              ({ s2 with state := MissionState.GO_BACK, engine := startEngine eng true },
               evs ++ [CtrlEvent.startPlanCall])
            else
              (s2, evs ++ [CtrlEvent.startPlanCall])
          else
            (s2, evs ++ [CtrlEvent.logMsg "Could not find plan to reach goal"])
        else
          let (s2, evs) := replanOnFailure s0 i
          (s2, prints ++ evs)
      else
        (s0, prints)
  | MissionState.GO_BACK =>
      let prints := feedbackPrints i.feedback
      if !eng.inFlight && (eng.result).isSome then
        if eng.result = some true then
          match selectorRobotAt s.received_value with
          | some p =>
              ({ s0 with predicates := removePred s0.predicates p },
               prints ++ [CtrlEvent.removePredicateCall p])
          | none => (s0, prints ++ [CtrlEvent.logMsg "Invalid state :("])
        else
          let (s2, evs) := replanOnFailure s0 i
          (s2, prints ++ evs)
      else
        (s0, prints)

/-- Controller states reachable from `initState` under ticks of `step` and
asynchronous selector updates delivered by `subscriberCallback`. -/
inductive Reachable : CtrlState → Prop where
  | init : Reachable initState
  | tick (s : CtrlState) (i : CtrlInput) : Reachable s → Reachable (step s i).1
  | recv (s : CtrlState) (v : Int) : Reachable s → Reachable { s with received_value := v }

theorem envUpdate_of_not_inFlight {e : EngineState} (i : CtrlInput)
    (h : e.inFlight = false) : envUpdate e i = e := by
  unfold envUpdate
  rw [h]
  simp

/-- A tick that ends in STARTING must have started in STARTING, and then the
engine was only touched by the environment (no successful submission). -/
theorem step_starting_src (s : CtrlState) (i : CtrlInput)
    (h : (step s i).1.state = MissionState.STARTING) :
    s.state = MissionState.STARTING ∧ (step s i).1.engine = envUpdate s.engine i := by
  obtain ⟨st, rv, preds, g, eng⟩ := s
  cases st
  case STARTING =>
    refine ⟨rfl, ?_⟩
    by_cases hp : i.planFound
    · by_cases ho : i.startOk
      · simp [step, hp, ho] at h
      · simp [step, hp, ho]
    · simp [step, hp]
  case PATROL_FINISHED =>
    exfalso
    by_cases hifl : (envUpdate eng i).inFlight = false
    · cases hres : (envUpdate eng i).result with
      | none => simp [step, hifl, hres] at h
      | some b =>
        cases b with
        | false =>
          by_cases hp : i.planFound
          · simp [step, replanOnFailure, hifl, hres, hp] at h
          · simp [step, replanOnFailure, hifl, hres, hp] at h
        | true =>
          cases hsel : selectorGoal rv with
          | some gg =>
            by_cases hp : i.planFound
            · by_cases ho : i.startOk
              · simp [step, hifl, hres, hsel, hp, ho] at h
              · simp [step, hifl, hres, hsel, hp, ho] at h
            · simp [step, hifl, hres, hsel, hp] at h
          | none =>
            by_cases hp : i.planFound
            · by_cases ho : i.startOk
              · simp [step, hifl, hres, hsel, hp, ho] at h
              · simp [step, hifl, hres, hsel, hp, ho] at h
            · simp [step, hifl, hres, hsel, hp] at h
    · simp only [Bool.not_eq_false] at hifl
      simp [step, hifl] at h
  case GO_BACK =>
    exfalso
    by_cases hifl : (envUpdate eng i).inFlight = false
    · cases hres : (envUpdate eng i).result with
      | none => simp [step, hifl, hres] at h
      | some b =>
        cases b with
        | false =>
          by_cases hp : i.planFound
          · simp [step, replanOnFailure, hifl, hres, hp] at h
          · simp [step, replanOnFailure, hifl, hres, hp] at h
        | true =>
          cases hsel : selectorRobotAt rv with
          | some p => simp [step, hifl, hres, hsel] at h
          | none => simp [step, hifl, hres, hsel] at h
    · simp only [Bool.not_eq_false] at hifl
      simp [step, hifl] at h

/-- Invariant: whenever the controller is (still) in STARTING, no plan is in
flight through the engine. -/
theorem reachable_starting_engine {s : CtrlState} (h : Reachable s) :
    s.state = MissionState.STARTING → s.engine.inFlight = false := by
  induction h with
  | init => intro _; rfl
  | tick s i _ ih =>
      intro hst
      obtain ⟨hsrc, heng⟩ := step_starting_src s i hst
      rw [heng, envUpdate_of_not_inFlight i (ih hsrc)]
      exact ih hsrc
  | recv s v _ ih => exact ih

theorem mem_failedLogs {fb : List ActionFeedbackInfo} {a : ActionFeedbackInfo}
    (ha : a ∈ fb) (hf : a.status = ActionStatus.FAILED) :
    CtrlEvent.logMsg ("[" ++ a.action ++ "] finished with error: " ++ a.message_status) ∈
      failedLogs fb := by
  unfold failedLogs
  exact List.mem_map_of_mem _ (List.mem_filter.mpr ⟨ha, by rw [hf]; rfl⟩)

/-- C6: whenever a controller tick from a reachable state calls
start_plan_execution, the engine is not executing a previously submitted plan
at that moment (its state, after any completion delivered before the tick, has
no plan in flight); hence at most one plan is ever in flight. -/
theorem C6_no_start_while_executing (s : CtrlState) (i : CtrlInput)
    (hr : Reachable s) (hmem : CtrlEvent.startPlanCall ∈ (step s i).2) :
    (envUpdate s.engine i).inFlight = false := by
  rcases hst : s.state with h1 | h2 | h3
  case STARTING =>
    have hifl : s.engine.inFlight = false := reachable_starting_engine hr hst
    rw [envUpdate_of_not_inFlight i hifl]
    exact hifl
  case PATROL_FINISHED =>
    by_cases hifl : (envUpdate s.engine i).inFlight = false
    · exact hifl
    · exfalso
      simp only [Bool.not_eq_false] at hifl
      obtain ⟨st, rv, preds, g, eng⟩ := s
      cases hst
      simp [step, hifl, feedbackPrints] at hmem
  case GO_BACK =>
    by_cases hifl : (envUpdate s.engine i).inFlight = false
    · exact hifl
    · exfalso
      simp only [Bool.not_eq_false] at hifl
      obtain ⟨st, rv, preds, g, eng⟩ := s
      cases hst
      simp [step, hifl, feedbackPrints] at hmem

def c6_input : CtrlInput :=
  { finishNow := false, finishSuccess := false, planFound := true, startOk := true,
    feedback := [] }

theorem C6_no_start_while_executing_witness :
    (envUpdate initState.engine c6_input).inFlight = false :=
  C6_no_start_while_executing initState c6_input Reachable.init
    (by simp [step, initState, c6_input])

/-- C9: once in GO_BACK the controller never leaves it, whatever the engine
reports: on plan success it only removes the selector-mapped robot_at fact
(or removes nothing when the selector maps to nothing) and keeps the goal; on
plan failure it requests a plan for the unchanged goal and keeps facts and
goal; in every case the next state is GO_BACK, so the mission never returns to
STARTING. -/
theorem C9_goback_absorbing (s : CtrlState) (i : CtrlInput)
    (hst : s.state = MissionState.GO_BACK) :
    (step s i).1.state = MissionState.GO_BACK ∧
    (step s i).1.goal = s.goal ∧
    ((envUpdate s.engine i).inFlight = false → (envUpdate s.engine i).result = some true →
      (∀ p, selectorRobotAt s.received_value = some p →
        (step s i).1.predicates = removePred s.predicates p) ∧
      (selectorRobotAt s.received_value = none → (step s i).1.predicates = s.predicates)) ∧
    ((envUpdate s.engine i).inFlight = false → (envUpdate s.engine i).result = some false →
      (step s i).1.predicates = s.predicates ∧
      CtrlEvent.getPlanCall s.goal ∈ (step s i).2) := by
  obtain ⟨st, rv, preds, g, eng⟩ := s
  cases hst
  by_cases hifl : (envUpdate eng i).inFlight = false
  · cases hres : (envUpdate eng i).result with
    | none => simp [step, hifl, hres]
    | some b =>
      cases b with
      | false =>
        by_cases hp : i.planFound
        · simp [step, replanOnFailure, hifl, hres, hp]
        · simp [step, replanOnFailure, hifl, hres, hp]
      | true =>
        cases hsel : selectorRobotAt rv with
        | some p => simp [step, hifl, hres, hsel]
        | none => simp [step, hifl, hres, hsel]
  · simp only [Bool.not_eq_false] at hifl
    simp [step, hifl]

def c9_state : CtrlState :=
  { state := MissionState.GO_BACK, received_value := 1, predicates := init_predicates,
    goal := "(and(robot_at r2d2 wp2))",
    engine := { inFlight := true, result := none } }

theorem C9_goback_absorbing_witness :
    (step c9_state c6_input).1.state = MissionState.GO_BACK :=
  (C9_goback_absorbing c9_state c6_input rfl).1

/-- C7: when a plan fails while in PATROL_FINISHED, the tick stays in
PATROL_FINISHED, keeps the goal and every fact (no patrolled fact is removed),
logs the name and message of each failed sub-action, requests a plan for the
unchanged current goal, and resubmits it when the planner finds one. -/
theorem C7_patrol_failure_replan (s : CtrlState) (i : CtrlInput)
    (hst : s.state = MissionState.PATROL_FINISHED)
    (hifl : (envUpdate s.engine i).inFlight = false)
    (hres : (envUpdate s.engine i).result = some false) :
    (step s i).1.state = MissionState.PATROL_FINISHED ∧
    (step s i).1.goal = s.goal ∧
    (step s i).1.predicates = s.predicates ∧
    (∀ a ∈ i.feedback, a.status = ActionStatus.FAILED →
      CtrlEvent.logMsg ("[" ++ a.action ++ "] finished with error: " ++ a.message_status) ∈
        (step s i).2) ∧
    CtrlEvent.getPlanCall s.goal ∈ (step s i).2 ∧
    (i.planFound = true → CtrlEvent.startPlanCall ∈ (step s i).2) := by
  obtain ⟨st, rv, preds, g, eng⟩ := s
  cases hst
  by_cases hp : i.planFound
  · simp only [step, replanOnFailure, hifl, hres, hp]
    simp
    intro a ha hf
    have hm := mem_failedLogs ha hf
    tauto
  · simp only [step, replanOnFailure, hifl, hres, hp]
    simp [hp]
    intro a ha hf
    have hm := mem_failedLogs ha hf
    tauto

def c7_state : CtrlState :=
  { state := MissionState.PATROL_FINISHED, received_value := -1,
    predicates := init_predicates, goal := patrol_goal,
    engine := { inFlight := true, result := none } }

def c7_input : CtrlInput :=
  { finishNow := true, finishSuccess := false, planFound := true, startOk := true,
    feedback := [{ action := "move", completion := 1 / 2, status := ActionStatus.FAILED,
                   message_status := "nav error" }] }

theorem C7_patrol_failure_replan_witness :
    (step c7_state c7_input).1.state = MissionState.PATROL_FINISHED ∧
    (step c7_state c7_input).1.goal = c7_state.goal ∧
    (step c7_state c7_input).1.predicates = c7_state.predicates :=
  let h := C7_patrol_failure_replan c7_state c7_input rfl rfl rfl
  ⟨h.1, h.2.1, h.2.2.1⟩

/-- C4: in the PATROL_FINISHED success branch, selector 0, 1, 2, 3 sets the
single-destination goal robot_at wp1, wp2, wp3, wp4 respectively through the
Knowledge Store, and any other value leaves the goal unchanged and logs the
"Invalid state :(" notice. -/
theorem C4_selector_goal_mapping (s : CtrlState) (i : CtrlInput)
    (hst : s.state = MissionState.PATROL_FINISHED)
    (hifl : (envUpdate s.engine i).inFlight = false)
    (hres : (envUpdate s.engine i).result = some true) :
    (s.received_value = 0 → (step s i).1.goal = "(and(robot_at r2d2 wp1))" ∧
      CtrlEvent.setGoalCall "(and(robot_at r2d2 wp1))" ∈ (step s i).2) ∧
    (s.received_value = 1 → (step s i).1.goal = "(and(robot_at r2d2 wp2))" ∧
      CtrlEvent.setGoalCall "(and(robot_at r2d2 wp2))" ∈ (step s i).2) ∧
    (s.received_value = 2 → (step s i).1.goal = "(and(robot_at r2d2 wp3))" ∧
      CtrlEvent.setGoalCall "(and(robot_at r2d2 wp3))" ∈ (step s i).2) ∧
    (s.received_value = 3 → (step s i).1.goal = "(and(robot_at r2d2 wp4))" ∧
      CtrlEvent.setGoalCall "(and(robot_at r2d2 wp4))" ∈ (step s i).2) ∧
    (¬(s.received_value = 0 ∨ s.received_value = 1 ∨ s.received_value = 2 ∨
        s.received_value = 3) →
      (step s i).1.goal = s.goal ∧ CtrlEvent.logMsg "Invalid state :(" ∈ (step s i).2) := by
  obtain ⟨st, rv, preds, g, eng⟩ := s
  cases hst
  refine ⟨?_, ?_, ?_, ?_, ?_⟩
  · intro hv
    cases hv
    by_cases hp : i.planFound
    · by_cases ho : i.startOk
      · simp [step, hifl, hres, selectorGoal, hp, ho]
      · simp [step, hifl, hres, selectorGoal, hp, ho]
    · simp [step, hifl, hres, selectorGoal, hp]
  · intro hv
    cases hv
    by_cases hp : i.planFound
    · by_cases ho : i.startOk
      · simp [step, hifl, hres, selectorGoal, hp, ho]
      · simp [step, hifl, hres, selectorGoal, hp, ho]
    · simp [step, hifl, hres, selectorGoal, hp]
  · intro hv
    cases hv
    by_cases hp : i.planFound
    · by_cases ho : i.startOk
      · simp [step, hifl, hres, selectorGoal, hp, ho]
      · simp [step, hifl, hres, selectorGoal, hp, ho]
    · simp [step, hifl, hres, selectorGoal, hp]
  · intro hv
    cases hv
    by_cases hp : i.planFound
    · by_cases ho : i.startOk
      · simp [step, hifl, hres, selectorGoal, hp, ho]
      · simp [step, hifl, hres, selectorGoal, hp, ho]
    · simp [step, hifl, hres, selectorGoal, hp]
  · intro hv
    push_neg at hv
    obtain ⟨h0, h1, h2, h3⟩ := hv
    have hsel : selectorGoal rv = none := by simp [selectorGoal, h0, h1, h2, h3]
    by_cases hp : i.planFound
    · by_cases ho : i.startOk
      · simp [step, hifl, hres, hsel, hp, ho]
      · simp [step, hifl, hres, hsel, hp, ho]
    · simp [step, hifl, hres, hsel, hp]

def c4_state : CtrlState :=
  { state := MissionState.PATROL_FINISHED, received_value := 1,
    predicates := init_predicates, goal := patrol_goal,
    engine := { inFlight := true, result := none } }

def c4_input : CtrlInput :=
  { finishNow := true, finishSuccess := true, planFound := true, startOk := true,
    feedback := [] }

theorem C4_selector_goal_mapping_witness :
    (step c4_state c4_input).1.goal = "(and(robot_at r2d2 wp2))" ∧
    CtrlEvent.setGoalCall "(and(robot_at r2d2 wp2))" ∈ (step c4_state c4_input).2 :=
  (C4_selector_goal_mapping c4_state c4_input rfl rfl rfl).2.1 rfl

/-- C10: the selector starts at the sentinel -1, which maps to the invalid
branch; in a PATROL_FINISHED success tick with any selector outside 0..3 the
controller still removes all four patrolled facts before the selector switch,
leaves the current (patrol) goal in place, requests a plan for that same goal,
and still moves to GO_BACK when the submission succeeds. -/
theorem C10_invalid_selector_path (s : CtrlState) (i : CtrlInput)
    (hst : s.state = MissionState.PATROL_FINISHED)
    (hifl : (envUpdate s.engine i).inFlight = false)
    (hres : (envUpdate s.engine i).result = some true)
    (hinv : ¬(s.received_value = 0 ∨ s.received_value = 1 ∨ s.received_value = 2 ∨
        s.received_value = 3)) :
    initState.received_value = -1 ∧
    selectorGoal initState.received_value = none ∧
    (step s i).1.predicates = clearPatrolled s.predicates ∧
    (step s i).1.goal = s.goal ∧
    CtrlEvent.getPlanCall s.goal ∈ (step s i).2 ∧
    (i.planFound = true → i.startOk = true →
      (step s i).1.state = MissionState.GO_BACK) := by
  obtain ⟨st, rv, preds, g, eng⟩ := s
  cases hst
  push_neg at hinv
  obtain ⟨h0, h1, h2, h3⟩ := hinv
  have hsel : selectorGoal rv = none := by simp [selectorGoal, h0, h1, h2, h3]
  refine ⟨rfl, rfl, ?_, ?_, ?_, ?_⟩
  · by_cases hp : i.planFound
    · by_cases ho : i.startOk
      · simp [step, hifl, hres, hsel, hp, ho]
      · simp [step, hifl, hres, hsel, hp, ho]
    · simp [step, hifl, hres, hsel, hp]
  · by_cases hp : i.planFound
    · by_cases ho : i.startOk
      · simp [step, hifl, hres, hsel, hp, ho]
      · simp [step, hifl, hres, hsel, hp, ho]
    · simp [step, hifl, hres, hsel, hp]
  · by_cases hp : i.planFound
    · by_cases ho : i.startOk
      · simp [step, hifl, hres, hsel, hp, ho]
      · simp [step, hifl, hres, hsel, hp, ho]
    · simp [step, hifl, hres, hsel, hp]
  · intro hp ho
    simp [step, hifl, hres, hsel, hp, ho]

def c10_state : CtrlState :=
  { state := MissionState.PATROL_FINISHED, received_value := -1,
    predicates := init_predicates, goal := patrol_goal,
    engine := { inFlight := true, result := none } }

theorem C10_invalid_selector_path_witness :
    (step c10_state c4_input).1.goal = c10_state.goal ∧
    (step c10_state c4_input).1.state = MissionState.GO_BACK :=
  let h := C10_invalid_selector_path c10_state c4_input rfl rfl rfl (by decide)
  ⟨h.2.2.2.1, h.2.2.2.2.2 rfl rfl⟩

end Patrol
